import Mathlib

/-!
Verification development for the data-validation framework's
transformation-to-query compiler and comparison engine
(`src/sql_generator.py`, `src/excel_handler.py`).

The Python string operations are embedded as structurally recursive
functions over `List Char`, so every definition evaluates inside the
kernel.  All definitions are translated from the source code.
-/

/-! ### String helpers (embeddings of Python `str` operations) -/

/-- `listIsPrefOf pat l` is true when `pat` is a leading segment of `l`
(embedding of Python `str.startswith` at list level). -/
def listIsPrefOf : List Char → List Char → Bool
  | [], _ => true
  | _ :: _, [] => false
  | a :: as, b :: bs => a == b && listIsPrefOf as bs

/-- `listContainsSub pat l` is true when `pat` occurs as a contiguous
segment of `l` (embedding of Python `in` on strings). -/
def listContainsSub (pat : List Char) : List Char → Bool
  | [] => listIsPrefOf pat []
  | c :: cs => listIsPrefOf pat (c :: cs) || listContainsSub pat cs

/-- Characters strictly before the first occurrence of `pat`
(embedding of Python `s.split(pat)[0]`; the whole list when absent). -/
def takeBeforeL (pat : List Char) : List Char → List Char
  | [] => []
  | c :: cs => if listIsPrefOf pat (c :: cs) then [] else c :: takeBeforeL pat cs

/-- Characters strictly after the first occurrence of `pat`, or `none`
when `pat` does not occur (used to embed the `re.search` capture). -/
def afterFirstL (pat : List Char) : List Char → Option (List Char)
  | [] => if pat.isEmpty then some [] else none
  | c :: cs =>
    if listIsPrefOf pat (c :: cs) then some ((c :: cs).drop pat.length)
    else afterFirstL pat cs

/-- Fueled worker for `removeAllL`; the fuel is the length of the list,
which bounds the number of recursion steps. -/
def removeAllFuel (pat : List Char) : Nat → List Char → List Char
  | _, [] => []
  | 0, l => l
  | fuel + 1, c :: cs =>
    if listIsPrefOf pat (c :: cs) && !pat.isEmpty then
      removeAllFuel pat fuel ((c :: cs).drop pat.length)
    else c :: removeAllFuel pat fuel cs

/-- Remove every (non-overlapping, left-to-right) occurrence of `pat`
(embedding of Python `s.replace(pat, "")`). -/
def removeAllL (pat l : List Char) : List Char := removeAllFuel pat l.length l

/-- Split on a single separator character (embedding of Python
`s.split(sep)` for a one-character separator). -/
def splitCharL (sep : Char) : List Char → List (List Char)
  | [] => [[]]
  | c :: cs =>
    if c == sep then [] :: splitCharL sep cs
    else
      match splitCharL sep cs with
      | [] => [[c]]
      | h :: t => (c :: h) :: t

/-- Strip leading and trailing whitespace (embedding of Python `str.strip`). -/
def trimL (l : List Char) : List Char :=
  ((l.dropWhile Char.isWhitespace).reverse.dropWhile Char.isWhitespace).reverse

/-- Embedding of Python `str.startswith`. -/
def strStarts (s pat : String) : Bool := listIsPrefOf pat.data s.data

/-- Embedding of Python `pat in s`. -/
def strContains (s pat : String) : Bool := listContainsSub pat.data s.data

/-- Embedding of Python `str.upper` (ASCII, as in the source data). -/
def strUpper (s : String) : String := String.mk (s.data.map Char.toUpper)

/-- Embedding of Python `str.lower` (ASCII, as in the source data). -/
def strLower (s : String) : String := String.mk (s.data.map Char.toLower)

/-- Embedding of Python `str.strip`. -/
def strTrim (s : String) : String := String.mk (trimL s.data)

/-- Embedding of Python `sep.join(parts)`. -/
def joinSep (sep : String) : List String → String
  | [] => ""
  | [x] => x
  | x :: y :: xs => x ++ sep ++ joinSep sep (y :: xs)

/-! ### Schema catalog hard-coded in `convert_business_logic_to_safe_sql` -/

/-- Known columns of the `customers` table (from `sql_generator.py`). -/
def customers_columns : List String :=
  ["customer_id", "first_name", "last_name", "full_name", "account_number",
   "account_type", "balance", "account_open_date", "address", "city", "state",
   "zip_code", "risk_score", "account_status", "monthly_income"]

/-- Known columns of the `transactions` table (from `sql_generator.py`). -/
def transactions_columns : List String :=
  ["transaction_id", "account_number", "transaction_type", "amount",
   "transaction_date", "channel", "merchant", "transaction_city",
   "transaction_state", "status", "is_fraudulent", "processing_fee"]

/-- Known columns of the `account_profiles` table (from `sql_generator.py`). -/
def account_profiles_columns : List String :=
  ["customer_reference", "account_id", "current_balance", "account_status",
   "account_type", "last_transaction_date", "credit_limit"]

/-- Table-name dispatch selecting the available column list
(the `if/elif` ladder at the top of `convert_business_logic_to_safe_sql`). -/
def availableColumnsFor (source_table : String) : List String :=
  if strLower source_table == "customers" then customers_columns
  else if strLower source_table == "transactions" then transactions_columns
  else if strLower source_table == "account_profiles" then account_profiles_columns
  else ["*"]

/-- The synonym table of the `CHECK_NOT_NULL` branch. -/
def column_mapping : List (String × String) :=
  [("email", "address"), ("customer_id", "customer_id"), ("first_name", "first_name")]

/-- Column-name extraction of the `SUM(` branch:
`parts[0].strip().replace('SUM(','').replace(')','').strip().lower()`
applied to the uppercased logic split at `GROUP_BY`. -/
def extractSumColumn (up : String) : String :=
  strLower (strTrim (String.mk
    (removeAllL ")".data
      (removeAllL "SUM(".data
        (trimL (takeBeforeL "GROUP_BY".data up.data))))))

/-- Embedding of the `CHECK_NOT_NULL` branch: regex capture of the
argument list, synonym mapping, schema filtering, completeness score. -/
def checkNotNullSql (logic : String) (available_columns : List String) : String :=
  match afterFirstL "CHECK_NOT_NULL(".data (strUpper logic).data with
  | none => "100"
  | some rest =>
    if listContainsSub ")".data rest then
      let columns_str := takeBeforeL ")".data rest
      let columns := (splitCharL ',' columns_str).map
        (fun c => strLower (strTrim (String.mk c)))
      let availLower := available_columns.map strLower
      let valid_columns := columns.filterMap (fun col =>
        match column_mapping.find? (fun p => p.1 == col) with
        | some p =>
          if availLower.contains p.2 then some p.2
          else if availLower.contains col then some col
          else none
        | none => if availLower.contains col then some col else none)
      if valid_columns == [] then "100"
      else
        "(" ++ joinSep " + " (valid_columns.map
          (fun col => "CASE WHEN " ++ col ++ " IS NOT NULL THEN 1 ELSE 0 END")) ++
        ") / " ++ toString valid_columns.length ++ " * 100"
    else "100"

/-- Embedding of the `CASE WHEN` branch's inner ladder.  When an outer
condition matches but the needed column is missing the Python falls
through to the final `return '"Standard"'`. -/
def caseWhenSql (logic : String) (available_columns : List String) : String :=
  let low := strLower logic
  let availLower := available_columns.map strLower
  if strContains logic "amount > 0" && strContains logic "Credit" &&
      strContains logic "Debit" then
    if available_columns.contains "amount" then
      "CASE WHEN amount > 0 THEN \"Credit\" ELSE \"Debit\" END"
    else "\"Standard\""
  else if strContains logic "balance <" && (strContains logic "Basic" &&
      strContains logic "Standard" && strContains logic "Premium") then
    if available_columns.contains "balance" then
      "CASE WHEN balance < 1000 THEN \"Basic\" WHEN balance < 10000 THEN \"Standard\" ELSE \"Premium\" END"
    else "\"Standard\""
  else if strContains logic "account_type =" && strContains logic "Personal" &&
      strContains logic "Business" then
    if available_columns.contains "account_type" then
      "CASE WHEN account_type = \"SAVINGS\" THEN \"Personal\" WHEN account_type = \"CHECKING\" THEN \"Personal\" ELSE \"Business\" END"
    else "\"Standard\""
  else if strContains logic "balance <" && (strContains logic "High" &&
      strContains logic "Medium" && strContains logic "Low") then
    if available_columns.contains "balance" then
      "CASE WHEN balance < 1000 THEN \"High\" WHEN balance < 10000 THEN \"Medium\" ELSE \"Low\" END"
    else "\"Standard\""
  else if strContains logic "age <" && strContains logic "Young" &&
      strContains logic "Adult" && strContains logic "Senior" then
    if available_columns.contains "age" then
      "CASE WHEN age < 25 THEN \"Young\" WHEN age < 65 THEN \"Adult\" ELSE \"Senior\" END"
    else "\"Standard\""
  else if strContains logic "balance" && available_columns.contains "balance" then
    logic
  else if availLower.any (fun c => strContains low c) then logic
  else "\"Standard\""

/-- Embedding of `convert_business_logic_to_safe_sql` from
`src/sql_generator.py` (the Logic Classifier & Translator).  The unused
`project_id`/`dataset_id` parameters of the Python signature are
dropped.  The `try/except` wrapper is not modelled because no branch of
the embedded ladder can fail. -/
def convert_business_logic_to_safe_sql (derivation_logic source_table : String) : String :=
  let available_columns := availableColumnsFor source_table
  let logic := strTrim derivation_logic
  let up := strUpper logic
  let low := strLower logic
  if strStarts up "SUM(" && strContains up "GROUP_BY" then
    let sum_column := extractSumColumn up
    if sum_column == "balance" && available_columns.contains "balance" then
      "SUM(balance)"
    else if sum_column == "amount" && available_columns.contains "amount" then
      "SUM(amount)"
    else "COUNT(*)"
  else if strStarts up "COUNT(" && strContains up "GROUP_BY" then
    "COUNT(*)"
  else if strStarts up "AVG(" && strContains up "GROUP_BY" then
    if available_columns.contains "amount" then "AVG(amount)"
    else if available_columns.contains "balance" then "AVG(balance)"
    else "COUNT(*)"
  else if strStarts up "IF(" then
    if available_columns.contains "amount" && strContains logic "amount > 10000" then
      "CASE WHEN amount > 10000 THEN \"High Risk\" ELSE \"Normal\" END"
    else if available_columns.contains "balance" && strContains logic "balance > 50000" then
      "CASE WHEN balance > 50000 THEN \"Premium\" ELSE \"Standard\" END"
    else "\"Standard\""
  else if strContains up "CHECK_NOT_NULL" then
    checkNotNullSql logic available_columns
  else if strContains up "VALIDATE_EMAIL_FORMAT" || strContains up "VALIDATE_ADDRESS_FORMAT" then
    if available_columns.contains "address" then
      "CASE WHEN address IS NOT NULL AND LENGTH(address) > 10 THEN \"Valid Address\" ELSE \"Invalid Address\" END"
    else if available_columns.contains "full_name" then
      "CASE WHEN full_name IS NOT NULL AND LENGTH(full_name) > 3 THEN \"Valid Name\" ELSE \"Invalid Name\" END"
    else "\"Valid\""
  else if strContains up "RANGE_CHECK" then
    if available_columns.contains "balance" && strContains low "balance" then
      "CASE WHEN balance >= 0 AND balance <= 1000000 THEN \"Within Range\" ELSE \"Out of Range\" END"
    else if available_columns.contains "amount" && strContains low "amount" then
      "CASE WHEN amount >= 0 THEN \"Valid Amount\" ELSE \"Invalid Amount\" END"
    else "\"Within Range\""
  else if strStarts up "CONCAT(" then
    if available_columns.contains "first_name" && available_columns.contains "last_name" &&
        strContains logic "first_name" && strContains logic "last_name" then
      "CONCAT(first_name, \" \", last_name)"
    else
      "CONCAT(first_name, \" \", last_name)"
  else if strContains up "FORMAT_DATE" && available_columns.contains "transaction_date" then
    "FORMAT_DATE(\"%Y-%m\", transaction_date)"
  else if strStarts up "CASE WHEN" then
    caseWhenSql logic available_columns
  else if (available_columns.map strLower).contains low then
    low
  else
    match available_columns.find? (fun col => strContains low (strLower col)) with
    | some col => col
    | none => "1"

/-! ### Key parser and join predicate (`parse_join_keys`, `create_join_condition`) -/

/-- Embedding of `parse_join_keys`: split a comma-separated key spec,
trim whitespace, drop empty segments; empty input gives `[]`. -/
def parse_join_keys (join_key_str : String) : List String :=
  if join_key_str == "" then []
  else (((splitCharL ',' join_key_str.data).map
    (fun k => String.mk (trimL k))).filter (fun k => k != ""))

/-- Embedding of `create_join_condition`: on a key-count mismatch the
Python raises `ValueError` with a message naming both counts, modelled
as `Except.error`; otherwise the per-position equality predicates are
joined with `AND`. -/
def create_join_condition (source_keys target_keys : List String)
    (source_alias target_alias : String) : Except String String :=
  if source_keys.length != target_keys.length then
    .error ("Source keys (" ++ toString source_keys.length ++ ") and target keys (" ++
      toString target_keys.length ++ ") count mismatch")
  else
    .ok (joinSep " AND " ((source_keys.zip target_keys).map
      (fun p => source_alias ++ "." ++ p.1 ++ " = " ++ target_alias ++ "." ++ p.2)))

/-- The `ON` clause of the row-level comparison join in
`create_transformation_validation_sql` (basic builder):
`s.{source_keys[0]} = t.{target_keys[0]}`. -/
def basicRowJoinOn (source_keys target_keys : List String) : String :=
  "s." ++ source_keys.headD "" ++ " = t." ++ target_keys.headD ""

/-- The `ON` clause of the row-level comparison join in
`create_enhanced_transformation_sql` (enhanced builder):
`create_join_condition(source_keys, target_keys, 's', 't')`. -/
def enhancedRowJoinOn (source_keys target_keys : List String) : Except String String :=
  create_join_condition source_keys target_keys "s" "t"

/-! ### Comparison-plan semantics (join, classify, summarize)

Relational semantics of the generated three-stage query: the
`target_actual` CTE (with its `WHERE target_column IS NOT NULL`
filter), the full outer join, the five-way `CASE` classification and
the `validation_summary`/verdict stage. -/

/-- The five-way classification of a joined comparison row. -/
inductive RowClass where
  | MATCH | MISMATCH | SOURCE_NULL | TARGET_NULL | BOTH_NULL
  deriving DecidableEq, Repr

/-- The classification `CASE` expression of the comparison CTE,
parameterized by the equality test used in the `MATCH` arm. -/
def classifyJoined {V : Type} (eqv : V → V → Bool) :
    Option V → Option V → RowClass
  | none, none => .BOTH_NULL
  | none, some _ => .SOURCE_NULL
  | some _, none => .TARGET_NULL
  | some c, some a => if eqv c a then .MATCH else .MISMATCH

/-- Aggregation-path equality:
`ABS(CAST(c AS FLOAT64) - CAST(a AS FLOAT64)) < 0.01`, with the
numeric values modelled as rationals. -/
def aggEq (x y : ℚ) : Bool := decide (|x - y| < 1/100)

/-- Row-level-path equality: `CAST(c AS STRING) = CAST(a AS STRING)`,
with the already-cast values modelled as strings. -/
def rowEq (x y : String) : Bool := x == y

/-- The `target_actual` CTE: target rows restricted, before the join,
to those whose checked column value is non-null. -/
def target_actual {K V : Type} (tgt : List (K × Option V)) : List (K × V) :=
  tgt.filterMap (fun r => r.2.map (fun v => (r.1, v)))

/-- Full outer join of two keyed row lists: matched pairs, unmatched
left rows, unmatched right rows. -/
def fullOuterJoin {K V W : Type} [DecidableEq K]
    (S : List (K × V)) (T : List (K × W)) :
    List (Option (K × V) × Option (K × W)) :=
  ((S.map (fun s =>
    let ms := T.filter (fun t => decide (t.1 = s.1))
    if ms.isEmpty then [(some s, (none : Option (K × W)))]
    else ms.map (fun t => (some s, some t)))).flatten)
  ++ ((T.filter (fun t => S.all (fun s => decide (s.1 ≠ t.1)))).map
    (fun t => ((none : Option (K × V)), some t)))

/-- The `comparison` CTE of the generated plan: join the source
projection to the null-filtered target actuals and classify each row. -/
def comparisonRows {K V : Type} [DecidableEq K] (eqv : V → V → Bool)
    (source_calculated : List (K × Option V))
    (target_rows : List (K × Option V)) : List RowClass :=
  (fullOuterJoin source_calculated (target_actual target_rows)).map
    (fun r => classifyJoined eqv (r.1.bind (fun s => s.2)) (r.2.map (fun t => t.2)))

/-- `COUNTIF(validation_result = 'MATCH')` of the summary stage. -/
def matching_rows (rows : List RowClass) : Nat :=
  rows.countP (fun r => r == .MATCH)

/-- `COUNT(*)` of the summary stage. -/
def total_rows (rows : List RowClass) : Nat := rows.length

/-- The final verdict `CASE` of every target-table comparison plan:
`WHEN matching_rows = total_rows THEN 'PASS' ELSE 'FAIL'`. -/
def validation_status (rows : List RowClass) : String :=
  if matching_rows rows == total_rows rows then "PASS" else "FAIL"

/-! ### Quality-only plans (no declared target table) -/

/-- Non-null count (`COUNT(calculated_col)`). -/
def nonNullCount {V : Type} (vals : List (Option V)) : Nat :=
  vals.countP (fun v => v.isSome)

/-- `COUNTIF(CAST(calculated_col AS STRING) LIKE '%error%')`. -/
def errorValueCount (vals : List (Option String)) : Nat :=
  vals.countP (fun v => match v with
    | some s => strContains s "error"
    | none => false)

/-- `COUNTIF(LENGTH(CAST(calculated_col AS STRING)) = 0)`. -/
def emptyValueCount (vals : List (Option String)) : Nat :=
  vals.countP (fun v => match v with
    | some s => s.length == 0
    | none => false)

/-- Verdict of the basic builder's aggregation quality plan:
`WHEN non_null_results >= total_rows * 0.9 THEN 'PASS' ELSE 'FAIL'`. -/
def basic_agg_quality_status (vals : List (Option ℚ)) : String :=
  if (nonNullCount vals : ℚ) ≥ (vals.length : ℚ) * (9/10) then "PASS" else "FAIL"

/-- Verdict of the basic builder's row-level quality plan:
`WHEN non_null_rows >= total_rows * 0.95 AND error_values = 0`. -/
def basic_row_quality_status (vals : List (Option String)) : String :=
  if (nonNullCount vals : ℚ) ≥ (vals.length : ℚ) * (95/100) ∧ errorValueCount vals = 0
  then "PASS" else "FAIL"

/-- Verdict of the enhanced builder's aggregation quality plan:
`WHEN non_null_groups >= total_composite_groups * 0.95`. -/
def enhanced_agg_quality_status (vals : List (Option ℚ)) : String :=
  if (nonNullCount vals : ℚ) ≥ (vals.length : ℚ) * (95/100) then "PASS" else "FAIL"

/-- Verdict of the enhanced builder's row-level quality plan:
`WHEN non_null_transformations >= total_rows * 0.95 AND empty_results = 0`. -/
def enhanced_row_quality_status (vals : List (Option String)) : String :=
  if (nonNullCount vals : ℚ) ≥ (vals.length : ℚ) * (95/100) ∧ emptyValueCount vals = 0
  then "PASS" else "FAIL"

/-! ### Scenario orchestrator (`execute_all_excel_scenarios`) -/

/-- Outcome of processing one scenario, abstracting SQL generation and
the external query engine: an exception raised anywhere in the
per-scenario `try` block, a failed query execution, a successful
execution whose first row carries `validation_status` and `row_count`,
or a successful execution returning no rows. -/
inductive ExecOutcome where
  | raises (msg : String)
  | queryError (msg : String)
  | success (validationStatus : String) (rowCount : Nat)
  | emptyResult
  deriving DecidableEq, Repr

/-- One scenario of the ordered batch, together with the behavior its
processing exhibits. -/
structure ScenarioRun where
  scenario_name : String
  outcome : ExecOutcome
  deriving DecidableEq, Repr

/-- The result record appended for one scenario. -/
structure ScenarioResult where
  scenario_name : String
  status : String
  error_message : Option String
  deriving DecidableEq, Repr

/-- The body of the per-scenario loop iteration in
`execute_all_excel_scenarios`: every path appends exactly one result;
exceptions and execution errors record status `ERROR` with the message,
an empty result set records `PASS`, and a result set with a
`validation_status` column records that status. -/
def processScenario (s : ScenarioRun) : ScenarioResult :=
  match s.outcome with
  | .raises msg => ⟨s.scenario_name, "ERROR", some msg⟩
  | .queryError msg => ⟨s.scenario_name, "ERROR", some msg⟩
  | .success st _ => ⟨s.scenario_name, st, none⟩
  | .emptyResult => ⟨s.scenario_name, "PASS", none⟩

/-- Embedding of the scenario loop of `execute_all_excel_scenarios`
(`src/excel_handler.py`): each scenario of the ordered batch is
processed in turn and its result appended. -/
def execute_all_excel_scenarios (scenarios : List ScenarioRun) : List ScenarioResult :=
  scenarios.map processScenario

/-! ### Helper lemmas -/

/-- Two leading segments of the same list are comparable: one of them
is a leading segment of the other. -/
theorem listIsPrefOf_comparable :
    ∀ (p q l : List Char), listIsPrefOf p l = true → listIsPrefOf q l = true →
      listIsPrefOf p q = true ∨ listIsPrefOf q p = true := by
  intro p q l
  induction l generalizing p q with
  | nil =>
    intro hp hq
    cases p with
    | nil => exact Or.inl rfl
    | cons a as => simp [listIsPrefOf] at hp
  | cons c cs ih =>
    intro hp hq
    cases p with
    | nil => exact Or.inl rfl
    | cons a as =>
      cases q with
      | nil => exact Or.inr rfl
      | cons b bs =>
        simp only [listIsPrefOf, Bool.and_eq_true, beq_iff_eq] at hp hq ⊢
        obtain ⟨hac, has⟩ := hp
        obtain ⟨hbc, hbs⟩ := hq
        subst hac
        subst hbc
        rcases ih as bs has hbs with h | h
        · exact Or.inl ⟨rfl, h⟩
        · exact Or.inr ⟨rfl, h⟩

/-- If `s` starts with `p`, and neither of `p`, `q` is a leading
segment of the other, then `s` does not start with `q`. -/
theorem strStarts_excl (s p q : String)
    (hpq : listIsPrefOf p.data q.data = false)
    (hqp : listIsPrefOf q.data p.data = false)
    (hp : strStarts s p = true) : strStarts s q = false := by
  cases hq : strStarts s q with
  | false => rfl
  | true =>
    exfalso
    unfold strStarts at hp hq
    rcases listIsPrefOf_comparable p.data q.data s.data hp hq with hh | hh
    · rw [hh] at hpq; cases hpq
    · rw [hh] at hqp; cases hqp

/-- Every list is a leading segment of itself. -/
theorem listIsPrefOf_refl : ∀ l : List Char, listIsPrefOf l l = true := by
  intro l
  induction l with
  | nil => rfl
  | cons c cs ih => simp [listIsPrefOf, ih]

/-- Every list occurs in itself. -/
theorem listContainsSub_self : ∀ l : List Char, listContainsSub l l = true := by
  intro l
  cases l with
  | nil => rfl
  | cons c cs => simp [listContainsSub, listIsPrefOf_refl]

/-- Every string contains itself. -/
theorem strContains_self (s : String) : strContains s s = true :=
  listContainsSub_self s.data

/-- If no lowercased known column occurs in `low`, then `low` is not
itself one of the lowercased known columns. -/
theorem map_lower_not_contains (cols : List String) (low : String)
    (h : ∀ col ∈ cols, strContains low (strLower col) = false) :
    (cols.map strLower).contains low = false := by
  cases hc : (cols.map strLower).contains low with
  | false => rfl
  | true =>
    exfalso
    have hmem : low ∈ cols.map strLower := List.elem_iff.mp hc
    rcases List.mem_map.mp hmem with ⟨col, hcol, hlow⟩
    have hne := h col hcol
    rw [hlow] at hne
    rw [strContains_self] at hne
    cases hne

/-- Positional pairing of `zip` through `getD`. -/
theorem zip_getD_eq :
    ∀ (as bs : List String) (i : Nat), i < as.length → i < bs.length →
      (as.zip bs).getD i ("", "") = (as.getD i "", bs.getD i "") := by
  intro as
  induction as with
  | nil => intro bs i h1 h2; simp at h1
  | cons a as ih =>
    intro bs i h1 h2
    cases bs with
    | nil => simp at h2
    | cons b bs =>
      cases i with
      | zero => rfl
      | succ n =>
        simp only [List.zip_cons_cons, List.getD_cons_succ]
        exact ih bs n (by simpa using h1) (by simpa using h2)

/-! ### Claim theorems -/

/-- C1: In every generated comparison plan with a declared target table the
summary verdict is `PASS` exactly when the count of `MATCH` rows equals the
total row count, the only other verdict is `FAIL` (no third `WARN` verdict
exists on this path), and any summary with `matching_rows = total_rows - 1`
over a nonempty comparison yields `FAIL`. -/
theorem pass_iff_all_rows_match (rows : List RowClass) :
    (validation_status rows = "PASS" ↔ matching_rows rows = total_rows rows)
    ∧ (validation_status rows = "PASS" ∨ validation_status rows = "FAIL")
    ∧ (1 ≤ total_rows rows → matching_rows rows = total_rows rows - 1 →
        validation_status rows = "FAIL") := by
  unfold validation_status
  split_ifs with h
  · have he : matching_rows rows = total_rows rows := eq_of_beq h
    refine ⟨⟨fun _ => he, fun _ => rfl⟩, Or.inl rfl, fun h1 h2 => ?_⟩
    exfalso
    omega
  · have hne : ¬ matching_rows rows = total_rows rows := fun he => h (beq_of_eq he)
    exact ⟨⟨fun hp => absurd hp (by decide), fun he => absurd he hne⟩,
      Or.inr rfl, fun _ _ => rfl⟩

/-- Witness for `pass_iff_all_rows_match`: a comparison with one mismatch
out of two rows is graded `FAIL`. -/
theorem pass_iff_all_rows_match_witness :
    validation_status [RowClass.MATCH, RowClass.MISMATCH] = "FAIL" :=
  (pass_iff_all_rows_match [RowClass.MATCH, RowClass.MISMATCH]).2.2
    (by decide) (by decide)

/-- C2 counterexample: `MAX(balance) GROUP_BY customer_id` starts with the
aggregate keyword `MAX` and contains `GROUP_BY`, yet the classifier returns
the bare column passthrough `customer_id` (not an aggregation fragment and
not the `COUNT(*)` fallback); and `SUM(risk_score) GROUP_BY account_number`
aggregates the known column `risk_score` yet degrades to `COUNT(*)`. -/
theorem aggregate_keyword_counterexample :
    convert_business_logic_to_safe_sql "MAX(balance) GROUP_BY customer_id" "customers"
        = "customer_id"
    ∧ convert_business_logic_to_safe_sql "SUM(risk_score) GROUP_BY account_number" "customers"
        = "COUNT(*)"
    ∧ "balance" ∈ customers_columns ∧ "risk_score" ∈ customers_columns :=
  ⟨rfl, rfl, by decide, by decide⟩

/-- C2 amended: only `SUM`, `COUNT` and `AVG` prefixes are handled by the
aggregation rules of the classifier.  With a grouping marker present:
a `SUM(`-prefixed logic yields `SUM(column)` only when the extracted column
is `balance` or `amount` and available, else `COUNT(*)`; a `COUNT(`-prefixed
logic always yields `COUNT(*)`; an `AVG(`-prefixed logic ignores the
extracted column and yields `AVG(amount)`, else `AVG(balance)`, else
`COUNT(*)` by availability.  (`MAX`/`MIN`-prefixed logic is not handled by
these rules and falls through to the later rules.) -/
theorem aggregate_keyword_amended (derivation_logic source_table : String)
    (hg : strContains (strUpper (strTrim derivation_logic)) "GROUP_BY" = true) :
    (strStarts (strUpper (strTrim derivation_logic)) "SUM(" = true →
      convert_business_logic_to_safe_sql derivation_logic source_table =
        (if extractSumColumn (strUpper (strTrim derivation_logic)) == "balance" &&
            (availableColumnsFor source_table).contains "balance" then "SUM(balance)"
         else if extractSumColumn (strUpper (strTrim derivation_logic)) == "amount" &&
            (availableColumnsFor source_table).contains "amount" then "SUM(amount)"
         else "COUNT(*)"))
    ∧ (strStarts (strUpper (strTrim derivation_logic)) "COUNT(" = true →
      convert_business_logic_to_safe_sql derivation_logic source_table = "COUNT(*)")
    ∧ (strStarts (strUpper (strTrim derivation_logic)) "AVG(" = true →
      convert_business_logic_to_safe_sql derivation_logic source_table =
        (if (availableColumnsFor source_table).contains "amount" then "AVG(amount)"
         else if (availableColumnsFor source_table).contains "balance" then "AVG(balance)"
         else "COUNT(*)")) := by
  refine ⟨fun h1 => ?_, fun h2 => ?_, fun h3 => ?_⟩
  · simp only [convert_business_logic_to_safe_sql]
    rw [h1, hg]
    simp
  · have hS := strStarts_excl _ "COUNT(" "SUM(" (by decide) (by decide) h2
    simp only [convert_business_logic_to_safe_sql]
    rw [hS, h2, hg]
    simp
  · have hS := strStarts_excl _ "AVG(" "SUM(" (by decide) (by decide) h3
    have hC := strStarts_excl _ "AVG(" "COUNT(" (by decide) (by decide) h3
    simp only [convert_business_logic_to_safe_sql]
    rw [hS, hC, h3, hg]
    simp

/-- Witness for `aggregate_keyword_amended` at
`SUM(balance) GROUP_BY account_number` over `customers`. -/
theorem aggregate_keyword_amended_witness :
    convert_business_logic_to_safe_sql "SUM(balance) GROUP_BY account_number" "customers"
      = "SUM(balance)" := by
  have h := (aggregate_keyword_amended "SUM(balance) GROUP_BY account_number" "customers"
    rfl).1 rfl
  rw [h]
  rfl

/-- C3 counterexample: with the composite key pair
`account_number, transaction_date` / `account_number, txn_date`, the
enhanced builder's row-level comparison joins on the full composite
predicate, not on only the first key pair (whereas the basic builder does
join on only the first pair). -/
theorem composite_join_counterexample :
    basicRowJoinOn ["account_number", "transaction_date"] ["account_number", "txn_date"]
        = "s.account_number = t.account_number"
    ∧ enhancedRowJoinOn ["account_number", "transaction_date"] ["account_number", "txn_date"]
        = .ok "s.account_number = t.account_number AND s.transaction_date = t.txn_date"
    ∧ enhancedRowJoinOn ["account_number", "transaction_date"] ["account_number", "txn_date"]
        ≠ .ok "s.account_number = t.account_number" := by
  refine ⟨rfl, rfl, fun hcontra => ?_⟩
  have h1 : enhancedRowJoinOn ["account_number", "transaction_date"] ["account_number", "txn_date"]
      = Except.ok "s.account_number = t.account_number AND s.transaction_date = t.txn_date" := rfl
  rw [h1] at hcontra
  exact absurd (Except.ok.inj hcontra) (by decide)

/-- C3 amended: for composite keys (length at least 2, equal lengths), the
basic builder's row-level comparison join clause depends only on the first
source/target key pair, while the enhanced builder's row-level comparison
join clause is the conjunction over all key pairs (one conjunct per
position). -/
theorem composite_join_amended (source_keys target_keys : List String)
    (hlen : source_keys.length = target_keys.length) (h2 : 2 ≤ source_keys.length) :
    basicRowJoinOn source_keys target_keys
        = basicRowJoinOn (source_keys.take 1) (target_keys.take 1)
    ∧ enhancedRowJoinOn source_keys target_keys
        = .ok (joinSep " AND " ((source_keys.zip target_keys).map
            (fun p => "s" ++ "." ++ p.1 ++ " = " ++ "t" ++ "." ++ p.2)))
    ∧ (source_keys.zip target_keys).length = source_keys.length := by
  obtain ⟨a, as, rfl⟩ : ∃ a as, source_keys = a :: as := by
    cases source_keys with
    | nil => simp at h2
    | cons a as => exact ⟨a, as, rfl⟩
  obtain ⟨b, bs, rfl⟩ : ∃ b bs, target_keys = b :: bs := by
    cases target_keys with
    | nil => simp at hlen
    | cons b bs => exact ⟨b, bs, rfl⟩
  refine ⟨rfl, ?_, ?_⟩
  · have hb : ((a :: as).length != (b :: bs).length) = false := by
      rw [hlen]
      exact bne_self_eq_false _
    unfold enhancedRowJoinOn create_join_condition
    rw [hb]
    simp
  · simp only [List.length_zip]
    omega

/-- Witness for `composite_join_amended` at a concrete composite key. -/
theorem composite_join_amended_witness :
    enhancedRowJoinOn ["a", "b"] ["c", "d"] = .ok "s.a = t.c AND s.b = t.d" := by
  have h := (composite_join_amended ["a", "b"] ["c", "d"] (by decide) (by decide)).2.1
  rw [h]
  rfl

/-- C4: a joined row with both values non-null is classified `MATCH`
exactly when the absolute difference is strictly below `0.01` on the
aggregation path (a difference of exactly `0.01` or more is `MISMATCH` —
the boundary is exclusive), and exactly when the string-cast values are
equal on the row-level path. -/
theorem match_classification_rule (x y : ℚ) (s t : String) :
    (classifyJoined aggEq (some x) (some y) = .MATCH ↔ |x - y| < 1/100)
    ∧ ((1/100 : ℚ) ≤ |x - y| → classifyJoined aggEq (some x) (some y) = .MISMATCH)
    ∧ (classifyJoined rowEq (some s) (some t) = .MATCH ↔ s = t) := by
  refine ⟨?_, fun hge => ?_, ?_⟩
  · simp only [classifyJoined, aggEq, decide_eq_true_eq]
    split_ifs with h
    · exact iff_of_true rfl h
    · exact iff_of_false (by decide) h
  · simp only [classifyJoined, aggEq, decide_eq_true_eq]
    rw [if_neg (not_lt.mpr hge)]
  · simp only [classifyJoined, rowEq]
    split_ifs with h
    · exact iff_of_true rfl (eq_of_beq h)
    · exact iff_of_false (by decide) (fun he => h (beq_of_eq he))

/-- Witness for `match_classification_rule`: a difference of exactly
`0.01` is classified `MISMATCH`. -/
theorem match_classification_rule_witness :
    classifyJoined aggEq (some (1 : ℚ)) (some (101/100)) = .MISMATCH :=
  (match_classification_rule 1 (101/100) "" "").2.1 (by norm_num [le_abs])

/-- C5 counterexample: for `CONCAT(city, " ", state)` over `customers`
both operand columns are known, yet the classifier does not return that
concatenation verbatim — it returns the fixed
`CONCAT(first_name, " ", last_name)`; and for `CONCAT(channel, merchant)`
over `transactions` (which has no `first_name`/`last_name` columns) it
still returns `CONCAT(first_name, " ", last_name)` instead of the
empty-string literal. -/
theorem concat_branch_counterexample :
    convert_business_logic_to_safe_sql "CONCAT(city, \" \", state)" "customers"
        = "CONCAT(first_name, \" \", last_name)"
    ∧ "city" ∈ customers_columns ∧ "state" ∈ customers_columns
    ∧ convert_business_logic_to_safe_sql "CONCAT(city, \" \", state)" "customers"
        ≠ "CONCAT(city, \" \", state)"
    ∧ convert_business_logic_to_safe_sql "CONCAT(channel, merchant)" "transactions"
        = "CONCAT(first_name, \" \", last_name)"
    ∧ "first_name" ∉ transactions_columns ∧ "last_name" ∉ transactions_columns :=
  ⟨rfl, by decide, by decide, by decide, rfl, by decide, by decide⟩

/-- C5 amended: for every derivation-logic string starting with `CONCAT(`
(and not containing the earlier-matched function keywords
`CHECK_NOT_NULL`, `VALIDATE_EMAIL_FORMAT`, `VALIDATE_ADDRESS_FORMAT`,
`RANGE_CHECK`), the classifier returns the fixed fragment
`CONCAT(first_name, " ", last_name)` unconditionally, for every source
table — never the operand columns verbatim and never an empty-string
literal. -/
theorem concat_branch_amended (derivation_logic source_table : String)
    (h1 : strStarts (strUpper (strTrim derivation_logic)) "CONCAT(" = true)
    (h2 : strContains (strUpper (strTrim derivation_logic)) "CHECK_NOT_NULL" = false)
    (h3 : strContains (strUpper (strTrim derivation_logic)) "VALIDATE_EMAIL_FORMAT" = false)
    (h4 : strContains (strUpper (strTrim derivation_logic)) "VALIDATE_ADDRESS_FORMAT" = false)
    (h5 : strContains (strUpper (strTrim derivation_logic)) "RANGE_CHECK" = false) :
    convert_business_logic_to_safe_sql derivation_logic source_table
      = "CONCAT(first_name, \" \", last_name)" := by
  have hS := strStarts_excl _ "CONCAT(" "SUM(" (by decide) (by decide) h1
  have hC := strStarts_excl _ "CONCAT(" "COUNT(" (by decide) (by decide) h1
  have hA := strStarts_excl _ "CONCAT(" "AVG(" (by decide) (by decide) h1
  have hI := strStarts_excl _ "CONCAT(" "IF(" (by decide) (by decide) h1
  simp only [convert_business_logic_to_safe_sql]
  rw [hS, hC, hA, hI, h2, h3, h4, h5, h1]
  simp

/-- Witness for `concat_branch_amended` on the conventional input. -/
theorem concat_branch_amended_witness :
    convert_business_logic_to_safe_sql "CONCAT(first_name, \" \", last_name)" "customers"
      = "CONCAT(first_name, \" \", last_name)" :=
  concat_branch_amended "CONCAT(first_name, \" \", last_name)" "customers"
    rfl rfl rfl rfl rfl

/-- C6: the classifier is total; for every derivation-logic string that
matches none of the pattern rules and contains no known column of the
source table, it returns the literal fragment `1` (the fail-open
fallback), never an exception. -/
theorem fallback_literal_safety (derivation_logic source_table : String)
    (hSum : (strStarts (strUpper (strTrim derivation_logic)) "SUM(" &&
        strContains (strUpper (strTrim derivation_logic)) "GROUP_BY") = false)
    (hCount : (strStarts (strUpper (strTrim derivation_logic)) "COUNT(" &&
        strContains (strUpper (strTrim derivation_logic)) "GROUP_BY") = false)
    (hAvg : (strStarts (strUpper (strTrim derivation_logic)) "AVG(" &&
        strContains (strUpper (strTrim derivation_logic)) "GROUP_BY") = false)
    (hIf : strStarts (strUpper (strTrim derivation_logic)) "IF(" = false)
    (hChk : strContains (strUpper (strTrim derivation_logic)) "CHECK_NOT_NULL" = false)
    (hVE : strContains (strUpper (strTrim derivation_logic)) "VALIDATE_EMAIL_FORMAT" = false)
    (hVA : strContains (strUpper (strTrim derivation_logic)) "VALIDATE_ADDRESS_FORMAT" = false)
    (hRng : strContains (strUpper (strTrim derivation_logic)) "RANGE_CHECK" = false)
    (hCat : strStarts (strUpper (strTrim derivation_logic)) "CONCAT(" = false)
    (hFd : strContains (strUpper (strTrim derivation_logic)) "FORMAT_DATE" = false)
    (hCase : strStarts (strUpper (strTrim derivation_logic)) "CASE WHEN" = false)
    (hcols : ∀ col ∈ availableColumnsFor source_table,
        strContains (strLower (strTrim derivation_logic)) (strLower col) = false) :
    convert_business_logic_to_safe_sql derivation_logic source_table = "1" := by
  have h11 : ((availableColumnsFor source_table).map strLower).contains
      (strLower (strTrim derivation_logic)) = false :=
    map_lower_not_contains _ _ hcols
  have h12 : (availableColumnsFor source_table).find?
      (fun col => strContains (strLower (strTrim derivation_logic)) (strLower col)) = none := by
    rw [List.find?_eq_none]
    intro col hmem
    simp [hcols col hmem]
  simp only [convert_business_logic_to_safe_sql]
  rw [hSum, hCount, hAvg, hIf, hChk, hVE, hVA, hRng, hCat, hFd, hCase, h11, h12]
  simp

/-- Witness for `fallback_literal_safety`:
`FROBNICATE(x)` over `customers` yields the literal `1`. -/
theorem fallback_literal_safety_witness :
    convert_business_logic_to_safe_sql "FROBNICATE(x)" "customers" = "1" :=
  fallback_literal_safety "FROBNICATE(x)" "customers"
    rfl rfl rfl rfl rfl rfl rfl rfl rfl rfl rfl (by decide)

/-- C7: when one scenario of an ordered batch raises during processing or
its query execution returns an error, that scenario is recorded with
status `ERROR` carrying the message, and the results of all other
scenarios are exactly what they would be on their own — the batch is
neither aborted nor truncated (one result per scenario). -/
theorem scenario_isolation (pre post : List ScenarioRun) (s : ScenarioRun) (msg : String)
    (h : s.outcome = .raises msg ∨ s.outcome = .queryError msg) :
    execute_all_excel_scenarios (pre ++ s :: post)
      = execute_all_excel_scenarios pre
        ++ ⟨s.scenario_name, "ERROR", some msg⟩ :: execute_all_excel_scenarios post
    ∧ (execute_all_excel_scenarios (pre ++ s :: post)).length = (pre ++ s :: post).length := by
  have hs : processScenario s = ⟨s.scenario_name, "ERROR", some msg⟩ := by
    rcases h with h | h <;> simp [processScenario, h]
  constructor
  · simp [execute_all_excel_scenarios, hs]
  · simp [execute_all_excel_scenarios]

/-- Witness for `scenario_isolation`: in a three-scenario batch whose
middle scenario raises, scenarios 1 and 3 keep their own verdicts and
scenario 2 is recorded as `ERROR`. -/
theorem scenario_isolation_witness :
    execute_all_excel_scenarios
        ([⟨"S1", .success "PASS" 10⟩] ++ ⟨"S2", .raises "boom"⟩ :: [⟨"S3", .success "FAIL" 5⟩])
      = [⟨"S1", "PASS", none⟩, ⟨"S2", "ERROR", some "boom"⟩, ⟨"S3", "FAIL", none⟩] := by
  have h := (scenario_isolation [⟨"S1", .success "PASS" 10⟩] [⟨"S3", .success "FAIL" 5⟩]
      ⟨"S2", .raises "boom"⟩ "boom" (Or.inl rfl)).1
  rw [h]
  rfl

/-- C8 counterexample: the enhanced builder's aggregation quality plan at
23 non-null results out of 25 (a 92% non-null rate, at least 90%) grades
`FAIL`, while the basic builder's aggregation quality plan grades the same
data `PASS` — so the 90% aggregate threshold does not apply in every
aggregation quality path; and the enhanced builder's row-level quality
plan grades `FAIL` on a fully non-null, zero-error-flagged column
containing one empty string. -/
theorem quality_threshold_counterexample :
    enhanced_agg_quality_status (List.replicate 23 (some (1 : ℚ)) ++ List.replicate 2 none)
        = "FAIL"
    ∧ (23 : ℚ) ≥ (25 : ℚ) * (9/10)
    ∧ basic_agg_quality_status (List.replicate 23 (some (1 : ℚ)) ++ List.replicate 2 none)
        = "PASS"
    ∧ enhanced_row_quality_status [some ""] = "FAIL"
    ∧ nonNullCount [some ""] = 1 ∧ errorValueCount [some ""] = 0 := by
  refine ⟨?_, by norm_num, ?_, ?_, rfl, rfl⟩
  · have h1 : nonNullCount (List.replicate 23 (some (1 : ℚ)) ++ List.replicate 2 none) = 23 := rfl
    have h2 : (List.replicate 23 (some (1 : ℚ)) ++ List.replicate 2 none).length = 25 := rfl
    unfold enhanced_agg_quality_status
    rw [h1, h2]
    norm_num
  · have h1 : nonNullCount (List.replicate 23 (some (1 : ℚ)) ++ List.replicate 2 none) = 23 := rfl
    have h2 : (List.replicate 23 (some (1 : ℚ)) ++ List.replicate 2 none).length = 25 := rfl
    unfold basic_agg_quality_status
    rw [h1, h2]
    norm_num
  · unfold enhanced_row_quality_status
    norm_num [nonNullCount, emptyValueCount, List.countP, List.countP.go]

/-- C8 amended: the quality-only verdicts are: basic builder aggregation
path `PASS` iff the non-null rate is at least 90%; enhanced builder
aggregation path `PASS` iff at least 95%; basic builder row-level path
`PASS` iff at least 95% and zero `error`-flagged values; enhanced builder
row-level path `PASS` iff at least 95% and zero empty-string values. -/
theorem quality_threshold_amended (aggVals : List (Option ℚ)) (rowVals : List (Option String)) :
    (basic_agg_quality_status aggVals = "PASS" ↔
      (nonNullCount aggVals : ℚ) ≥ (aggVals.length : ℚ) * (9/10))
    ∧ (enhanced_agg_quality_status aggVals = "PASS" ↔
      (nonNullCount aggVals : ℚ) ≥ (aggVals.length : ℚ) * (95/100))
    ∧ (basic_row_quality_status rowVals = "PASS" ↔
      ((nonNullCount rowVals : ℚ) ≥ (rowVals.length : ℚ) * (95/100) ∧
        errorValueCount rowVals = 0))
    ∧ (enhanced_row_quality_status rowVals = "PASS" ↔
      ((nonNullCount rowVals : ℚ) ≥ (rowVals.length : ℚ) * (95/100) ∧
        emptyValueCount rowVals = 0)) := by
  refine ⟨?_, ?_, ?_, ?_⟩
  · unfold basic_agg_quality_status
    split_ifs with h
    · exact iff_of_true rfl h
    · exact iff_of_false (by decide) h
  · unfold enhanced_agg_quality_status
    split_ifs with h
    · exact iff_of_true rfl h
    · exact iff_of_false (by decide) h
  · unfold basic_row_quality_status
    split_ifs with h
    · exact iff_of_true rfl h
    · exact iff_of_false (by decide) h
  · unfold enhanced_row_quality_status
    split_ifs with h
    · exact iff_of_true rfl h
    · exact iff_of_false (by decide) h

/-- Witness for `quality_threshold_amended`: a fully non-null aggregation
column passes the basic builder's 90% quality gate. -/
theorem quality_threshold_amended_witness :
    basic_agg_quality_status [some (1 : ℚ), some 2] = "PASS" :=
  (quality_threshold_amended [some (1 : ℚ), some 2] []).1.mpr
    (by rw [show nonNullCount [some (1 : ℚ), some 2] = 2 from rfl]; norm_num)

/-- C9: for key lists of unequal length, `create_join_condition` fails
with an error naming both counts; for equal lengths it returns the
conjunction (joined with `AND`) of exactly one equality predicate
`source_alias.key_i = target_alias.key_i` per position, pairing position
`i` of the source keys with position `i` of the target keys. -/
theorem join_predicate_rule (source_keys target_keys : List String)
    (source_alias target_alias : String) :
    (source_keys.length ≠ target_keys.length →
      create_join_condition source_keys target_keys source_alias target_alias =
        .error ("Source keys (" ++ toString source_keys.length ++
          ") and target keys (" ++ toString target_keys.length ++ ") count mismatch"))
    ∧ (source_keys.length = target_keys.length →
      create_join_condition source_keys target_keys source_alias target_alias =
        .ok (joinSep " AND " ((source_keys.zip target_keys).map
          (fun p => source_alias ++ "." ++ p.1 ++ " = " ++ target_alias ++ "." ++ p.2)))
      ∧ ((source_keys.zip target_keys).map
          (fun p => source_alias ++ "." ++ p.1 ++ " = " ++ target_alias ++ "." ++ p.2)).length
          = source_keys.length
      ∧ ∀ i : Nat, i < source_keys.length →
          (source_keys.zip target_keys).getD i ("", "")
            = (source_keys.getD i "", target_keys.getD i "")) := by
  constructor
  · intro hne
    unfold create_join_condition
    rw [if_pos]
    exact bne_iff_ne.mpr hne
  · intro heq
    have hb : (source_keys.length != target_keys.length) = false := by
      rw [heq]
      exact bne_self_eq_false _
    refine ⟨?_, ?_, fun i hi => zip_getD_eq _ _ i hi (heq ▸ hi)⟩
    · unfold create_join_condition
      rw [hb]
      simp
    · simp only [List.length_map, List.length_zip]
      omega

/-- Witness for `join_predicate_rule`: the mismatch error names both
counts, and a concrete composite pair yields the two-conjunct predicate. -/
theorem join_predicate_rule_witness :
    create_join_condition ["a"] ["c", "d"] "s" "t"
        = .error "Source keys (1) and target keys (2) count mismatch"
    ∧ create_join_condition ["a", "b"] ["c", "d"] "s" "t"
        = .ok "s.a = t.c AND s.b = t.d" := by
  constructor
  · have h := (join_predicate_rule ["a"] ["c", "d"] "s" "t").1 (by decide)
    rw [h]
    exact congrArg Except.error (by decide)
  · have h := ((join_predicate_rule ["a", "b"] ["c", "d"] "s" "t").2 rfl).1
    rw [h]
    rfl

/-- C10: in every generated comparison plan with a declared target table
the target side is filtered, before the outer join, to rows whose checked
column is non-null: inserting a target row with a null checked value
anywhere changes neither the target actuals nor the classified comparison
rows (so it is excluded from the total row count when no source row
shares its key), and a source row left without a join partner classifies
as `TARGET_NULL`. -/
theorem target_null_prefilter {K V : Type} [DecidableEq K] (eqv : V → V → Bool)
    (src : List (K × Option V)) (tgt1 tgt2 : List (K × Option V)) (k : K) :
    target_actual (tgt1 ++ (k, (none : Option V)) :: tgt2) = target_actual (tgt1 ++ tgt2)
    ∧ comparisonRows eqv src (tgt1 ++ (k, (none : Option V)) :: tgt2)
        = comparisonRows eqv src (tgt1 ++ tgt2)
    ∧ (∀ c : V, classifyJoined eqv (some c) none = .TARGET_NULL) := by
  have h1 : target_actual (tgt1 ++ (k, (none : Option V)) :: tgt2)
      = target_actual (tgt1 ++ tgt2) := by
    unfold target_actual
    simp [List.filterMap_append, List.filterMap_cons]
  refine ⟨h1, ?_, fun c => rfl⟩
  unfold comparisonRows
  rw [h1]

/-- Witness for `target_null_prefilter`: a null-valued target row with an
unshared key produces no comparison row of its own. -/
theorem target_null_prefilter_witness :
    comparisonRows rowEq [((1 : Nat), some "x")] [(2, some "y"), (3, none)]
      = comparisonRows rowEq [((1 : Nat), some "x")] [(2, some "y")] :=
  (target_null_prefilter rowEq [((1 : Nat), some "x")] [(2, some "y")] [] 3).2.1

